import Mathlib

/-!
# Verification of the tj-hackathon-ecommerce-backend core

Shallow embedding of the repository's cache-aside resolver (product routes)
and admission/queue middleware, with theorems settling the specification's
claims about them.

All definitions are translated from the JavaScript source:
* `requestQueueManager` / `processQueue` from the middleware utilities,
* `validatePaginationParams`, `validateSearchParams` and the four product
  route handlers from the product routes module,
* the server wiring (hooks registered in `server.js`).
-/

namespace ECommerce

/-! ## JavaScript primitive modelling -/

/-- Models JavaScript `parseInt(value) || default` where `value` is an already
parsed optional integer: `none` stands for an absent parameter or a `NaN`
parse result, and a parsed `0` is falsy in JS, so it also yields the default. -/
def jsIntOr (v : Option Int) (d : Int) : Int :=
  match v with
  | none => d
  | some n => if n = 0 then d else n

/-- Models JavaScript `parseInt` applied to a string: skip leading whitespace,
read an optional sign, then the longest digit prefix; `NaN` (here `none`) when
no digits follow. -/
def jsParseInt (s : String) : Option Int :=
  let cs := s.toList.dropWhile (fun c => c = ' ' ∨ c = '\t' ∨ c = '\n' ∨ c = '\r')
  let (sign, rest) :=
    match cs with
    | '-' :: t => ((-1 : Int), t)
    | '+' :: t => ((1 : Int), t)
    | t => ((1 : Int), t)
  let digits := rest.takeWhile Char.isDigit
  if digits.isEmpty then none
  else some (sign * (digits.foldl (fun acc c => acc * 10 + (c.toNat - '0'.toNat)) 0 : Nat))

/-- Contiguous-sublist containment on character lists. -/
def charListIncludes (hay pat : List Char) : Bool :=
  pat.isPrefixOf hay ||
    match hay with
    | [] => false
    | _ :: t => charListIncludes t pat

/-- Models JavaScript `String.prototype.includes`: substring containment. -/
def jsIncludes (s pat : String) : Bool :=
  charListIncludes s.toList pat.toList

/-- JavaScript `String.prototype.toLowerCase` (and PostgreSQL `LOWER` on
these catalog values): per-character lower-casing. -/
def strToLower (s : String) : String :=
  String.mk (s.toList.map Char.toLower)

/-- JavaScript `String.prototype.trim`: strip whitespace at both ends. -/
def strTrim (s : String) : String :=
  String.mk (((s.toList.dropWhile Char.isWhitespace).reverse.dropWhile
    Char.isWhitespace).reverse)

/-! ## Admission/Queue Controller (`requestQueueManager` middleware)

The middleware keeps three closure variables: `activeRequests`,
`requestQueue` and `isProcessingQueue`.  `server.js` registers the returned
function as an `onRequest` hook and registers **no** hook that runs at
request completion and touches this state (the only `onResponse` hook is the
response logger).  A queued entry stores `request`, `reply`, a fresh `done`
closure — which decrements `activeRequests` and re-invokes `processQueue`,
and does *not* capture the middleware's original `done` continuation — and
its enqueue `timestamp`. -/

/-- Options of `requestQueueManager`; `server.js` passes none, so the
defaults apply and `enableQueue` comes from the environment variable. -/
structure QueueOptions where
  maxConcurrentRequests : Int := 1000
  queueTimeout : Int := 30000
  enableQueue : Bool
deriving DecidableEq, Repr

/-- `enableQueue = process.env.ENABLE_REQUEST_QUEUE === 'true'`. -/
def enableQueueDefault (envEnableRequestQueue : Option String) : Bool :=
  envEnableRequestQueue = some "true"

/-- The options `requestQueueManager(app)` gets in `server.js`: an empty
options object, so every default applies. -/
def defaultQueueOptions (envEnableRequestQueue : Option String) : QueueOptions :=
  { enableQueue := enableQueueDefault envEnableRequestQueue }

/-- A queue entry as pushed by the middleware: the request (identified here
by a number) and the `Date.now()` enqueue timestamp.  The `done` closure the
code stores is fixed (`activeRequests--; processQueue()`), so its effect is
inlined in `processQueue` below rather than stored. -/
structure QueueEntry where
  reqId : Nat
  timestamp : Int
deriving DecidableEq, Repr

/-- The middleware's closure state. -/
structure MWState where
  activeRequests : Int
  requestQueue : List QueueEntry
deriving DecidableEq, Repr

/-- Observable effects of the middleware: `proceed r` is the original
Fastify `done()` continuation being called for request `r` (the request goes
on to its handler); `sent503 r` is `reply.code(503).send(...)`;
the header effects record `reply.header('X-Queue-Position', …)` and
`reply.header('X-Queue-Wait-Time', …)`. -/
inductive QueueEffect where
  | proceed (reqId : Nat)
  | sent503 (reqId : Nat)
  | headerQueuePosition (reqId : Nat) (position : Nat)
  | headerQueueWaitTime (reqId : Nat) (waitMs : Int)
deriving DecidableEq, Repr

/-- The `while` loop of `processQueue`, run at time `now`.

Source behaviour per iteration, while the queue is non-empty and
`activeRequests < maxConcurrentRequests`:
* `shift()` the head entry;
* if `Date.now() - timestamp > queueTimeout`: send 503 and `continue`;
* otherwise `activeRequests++` followed by the entry's stored `done()`,
  which performs `activeRequests--` and a recursive `processQueue()` call
  that returns immediately (`isProcessingQueue` is set) — the net counter
  change is zero and the entry's original Fastify continuation is never
  called, so no `proceed` effect is produced. -/
def processQueue (opts : QueueOptions) (now : Int) :
    List QueueEntry → Int → List QueueEntry × Int × List QueueEffect
  | [], active => ([], active, [])
  | e :: rest, active =>
    if active < opts.maxConcurrentRequests then
      if now - e.timestamp > opts.queueTimeout then
        let (q, a, effs) := processQueue opts now rest active
        (q, a, .sent503 e.reqId :: effs)
      else
        let (q, a, effs) := processQueue opts now rest (active + 1 - 1)
        (q, a, effs)
    else (e :: rest, active, [])

/-- The middleware body for an incoming request `reqId` at time `now`
(the function returned by `requestQueueManager`).

* If queueing is disabled or `activeRequests < maxConcurrentRequests`:
  `activeRequests++` and the original `done()` runs — the request proceeds.
* Otherwise a queue entry is pushed, the `X-Queue-Position` header is set to
  the queue length after the push, `X-Queue-Wait-Time` to
  `Date.now() - queueEntry.timestamp` (zero: both are taken at enqueue
  time), and `processQueue()` runs (`isProcessingQueue` is false at the
  top level). -/
def onRequest (opts : QueueOptions) (now : Int) (reqId : Nat) (s : MWState) :
    MWState × List QueueEffect :=
  if ¬ opts.enableQueue ∨ s.activeRequests < opts.maxConcurrentRequests then
    ({ s with activeRequests := s.activeRequests + 1 }, [.proceed reqId])
  else
    let entry : QueueEntry := { reqId := reqId, timestamp := now }
    let q := s.requestQueue ++ [entry]
    let headerEffs : List QueueEffect :=
      [.headerQueuePosition reqId q.length,
       .headerQueueWaitTime reqId (now - entry.timestamp)]
    let (q', a', effs) := processQueue opts now q s.activeRequests
    ({ activeRequests := a', requestQueue := q' }, headerEffs ++ effs)

/-- Completion of a request.  `server.js` registers no hook that decrements
`activeRequests` or drains the queue when a request finishes (its only
`onResponse` hook is the response logger), so request completion leaves the
middleware state unchanged and produces no effect. -/
def onComplete (_opts : QueueOptions) (_reqId : Nat) (s : MWState) :
    MWState × List QueueEffect :=
  (s, [])

/-- External events driving the middleware. -/
inductive QueueEvent where
  | arrive (reqId : Nat) (now : Int)
  | complete (reqId : Nat)
deriving DecidableEq, Repr

/-- One event step of the middleware. -/
def queueStep (opts : QueueOptions) (s : MWState) :
    QueueEvent → MWState × List QueueEffect
  | .arrive reqId now => onRequest opts now reqId s
  | .complete reqId => onComplete opts reqId s

/-- Run a sequence of events from a given state, concatenating effects. -/
def runQueueFrom (opts : QueueOptions) (s : MWState) :
    List QueueEvent → MWState × List QueueEffect
  | [] => (s, [])
  | ev :: rest =>
    let (s', effs) := queueStep opts s ev
    let (s'', effs') := runQueueFrom opts s' rest
    (s'', effs ++ effs')

/-- The middleware's initial state: `activeRequests = 0`, empty queue. -/
def initMWState : MWState := { activeRequests := 0, requestQueue := [] }

/-- Run a sequence of events from the initial middleware state. -/
def runQueue (opts : QueueOptions) (evs : List QueueEvent) :
    MWState × List QueueEffect :=
  runQueueFrom opts initMWState evs

/-! ## Data model of the product routes -/

/-- A row of the `products` table, with the columns the route handlers
select.  Fields other than `id`, `index` and `category` never influence
control flow, so they carry defaults for concise literals. -/
structure Product where
  id : Int
  index : Int
  name : String := ""
  description : String := ""
  price : Int := 0
  category : String := ""
  brand : String := ""
  image_url : String := ""
  stock : Int := 0
  internal_id : String := ""
deriving DecidableEq, Repr

/-- The `products` table. -/
abbrev DB := List Product

/-- `ORDER BY index`: stable sort of a row list by ascending `index`. -/
def sortByIndex (l : List Product) : List Product :=
  List.insertionSort (fun a b => a.index ≤ b.index) l

/-! ## Cache model

The routes use Redis through `get` and `set … 'EX' ttl`.  The cache is
modelled at the serialisation boundary: it stores the typed payload
(`JSON.parse ∘ JSON.stringify` is structure-preserving on these envelopes)
together with an absolute expiry instant. -/

/-- Envelope of `GET /api/products`. -/
structure ListEnvelope where
  products : List Product
  page : Int
  limit : Int
  total : Int
deriving DecidableEq, Repr

/-- Envelope of `GET /api/products/search`. -/
structure SearchEnvelope where
  products : List Product
  page : Int
  limit : Int
  total : Int
  searchTerm : String
deriving DecidableEq, Repr

/-- Envelope of `GET /api/products/category/:categoryName`. -/
structure CategoryEnvelope where
  products : List Product
  category : String
  count : Int
  categoryMatches : Int
  randomProducts : Int
deriving DecidableEq, Repr

/-- A cached payload: one of the route envelopes, or the stringified total
count stored under `products:total:count`. -/
inductive CacheVal where
  | listEnv (e : ListEnvelope)
  | searchEnv (e : SearchEnvelope)
  | catEnv (e : CategoryEnvelope)
  | countVal (n : Int)
deriving DecidableEq, Repr

/-- The cache: association list from key to payload and absolute expiry. -/
abbrev Cache := List (String × CacheVal × Int)

/-- `redis.get(key)` at time `now`: the entry is visible strictly before its
expiry instant. -/
def cacheGet (c : Cache) (key : String) (now : Int) : Option CacheVal :=
  match c.find? (fun e => e.1 == key) with
  | some (_, v, expiry) => if now < expiry then some v else none
  | none => none

/-- `redis.set(key, value, 'EX', ttl)` at time `now`: overwrite the key with
expiry `now + ttl`. -/
def cacheSet (c : Cache) (key : String) (v : CacheVal) (ttl now : Int) : Cache :=
  (key, v, now + ttl) :: c.filter (fun e => ¬ e.1 == key)

/-- One cache or store access performed by a handler, in program order. -/
inductive Access where
  | cacheRead (key : String)
  | cacheWrite (key : String)
  | dbQuery (operation : String)
deriving DecidableEq, Repr

/-- Result of running a route handler: its HTTP-level result, the cache
state afterwards, the cache/store accesses in order, and the names of the
response headers the handler set. -/
structure RouteOut (ρ : Type) where
  result : ρ
  cache : Cache
  accesses : List Access
  headers : List String
deriving DecidableEq, Repr

/-! ## Parameter validation -/

/-- `validatePaginationParams(query)`:
`page = parseInt(query.page) || 1`, `limit = parseInt(query.limit) || 10`,
then range checks that throw `Error` with the listed messages. -/
def validatePaginationParams (qpage qlimit : Option Int) :
    Except String (Int × Int) :=
  let page := jsIntOr qpage 1
  let limit := jsIntOr qlimit 10
  if page < 1 then .error "Page number must be greater than 0"
  else if limit < 1 then .error "Limit must be greater than 0"
  else if limit > 100 then .error "Limit cannot exceed 100 items per page"
  else .ok (page, limit)

/-- `validateSearchParams(query)`: pagination validation, then
`const search = query.q ? query.q.trim() : null` (an absent or empty —
falsy — `q` yields null), then, when non-null, `parseInt(search)` must be a
positive integer. -/
def validateSearchParams (qpage qlimit : Option Int) (qq : Option String) :
    Except String (Int × Int × Option String) :=
  match validatePaginationParams qpage qlimit with
  | .error e => .error e
  | .ok (page, limit) =>
    let search : Option String :=
      match qq with
      | none => none
      | some s => if s = "" then none else some (strTrim s)
    match search with
    | none => .ok (page, limit, none)
    | some s =>
      match jsParseInt s with
      | none => .error "Search term must be a positive integer (index number)"
      | some n =>
        if n < 1 then .error "Search term must be a positive integer (index number)"
        else .ok (page, limit, some s)

/-! ## `GET /api/products` (listing) -/

/-- Cache key of a listing page. -/
def listCacheKey (page limit : Int) : String :=
  "products:page:" ++ toString page ++ ":limit:" ++ toString limit

/-- Cache key of the total product count. -/
def totalCountKey : String := "products:total:count"

/-- HTTP-level result of the listing handler. -/
inductive ListResult where
  | ok (env : ListEnvelope) (xcache : String)
  | badRequest (message : String)
  | internalError (message : String)
deriving DecidableEq, Repr

/-- The listing handler's `catch` block: thrown messages containing one of
the three validation prefixes map to 400, everything else to 500. -/
def listCatch (msg : String) : ListResult :=
  if jsIncludes msg "Page number must be" ∨ jsIncludes msg "Limit must be" ∨
      jsIncludes msg "Limit cannot exceed" then
    .badRequest msg
  else
    .internalError msg

/-- The `GET /api/products` handler.

Control flow from the source: validate parameters; read the page's cache
key (a hit returns the parsed envelope with `X-Cache: HIT`); on a miss read
the cached total count (`if (cachedTotal) total = parseInt(cachedTotal)`
followed by `if (!total)`, so an absent entry — or a cached `"0"`, falsy
after parsing — re-runs the count query); run
`SELECT * FROM products ORDER BY index LIMIT $1 OFFSET $2` (plus the count
query when needed); cache the freshly counted total for 300 s and the
envelope for 60 s; return with `X-Cache: MISS`. -/
def getProducts (db : DB) (c : Cache) (now : Int) (qpage qlimit : Option Int) :
    RouteOut ListResult :=
  match validatePaginationParams qpage qlimit with
  | .error msg =>
    { result := listCatch msg, cache := c, accesses := [], headers := [] }
  | .ok (page, limit) =>
    let offset := (page - 1) * limit
    let cacheKey := listCacheKey page limit
    match cacheGet c cacheKey now with
    | some (.listEnv env) =>
      { result := .ok env "HIT", cache := c,
        accesses := [.cacheRead cacheKey],
        headers := ["X-Cache", "X-Response-Time"] }
    | _ =>
      let cachedTotal : Option Int :=
        match cacheGet c totalCountKey now with
        | some (.countVal n) => some n
        | _ => none
      let needsCount : Bool :=
        match cachedTotal with
        | none => true
        | some n => n = 0
      let rows := ((sortByIndex db).drop offset.toNat).take limit.toNat
      let total : Int := if needsCount then (db.length : Int) else cachedTotal.getD 0
      let c1 := if needsCount then cacheSet c totalCountKey (.countVal total) 300 now else c
      let env : ListEnvelope := { products := rows, page := page, limit := limit, total := total }
      let c2 := cacheSet c1 cacheKey (.listEnv env) 60 now
      { result := .ok env "MISS", cache := c2,
        accesses :=
          [.cacheRead cacheKey, .cacheRead totalCountKey,
           .dbQuery "fetching products"] ++
          (if needsCount then
            [.dbQuery "counting total products", .cacheWrite totalCountKey]
          else []) ++
          [.cacheWrite cacheKey],
        headers := ["X-Cache", "X-Response-Time"] }

/-! ## `GET /api/products/search` -/

/-- Cache key of a search page. -/
def searchCacheKey (indexNumber page limit : Int) : String :=
  "products:search:index:" ++ toString indexNumber ++
    ":page:" ++ toString page ++ ":limit:" ++ toString limit

/-- HTTP-level result of the search handler. -/
inductive SearchResult where
  | ok (env : SearchEnvelope) (xcache : String)
  | badRequest (message : String)
  | internalError (message : String)
deriving DecidableEq, Repr

/-- The search handler's `catch` block.  Note that the message thrown by
`validateSearchParams` for a malformed term — `"Search term must be a
positive integer (index number)"` — matches none of the checked substrings
(the handler checks for `'Search term cannot be'`), so it maps to 500. -/
def searchCatch (msg : String) : SearchResult :=
  if jsIncludes msg "Page number must be" ∨ jsIncludes msg "Limit must be" ∨
      jsIncludes msg "Limit cannot exceed" ∨ jsIncludes msg "Search term cannot be" then
    .badRequest msg
  else
    .internalError msg

/-- The `GET /api/products/search` handler.

The handler reads the search term from the `q` query parameter only; a
`search` query parameter (`qsearch`) is accepted by the route's schema but
never read.  Control flow from the source: `validateSearchParams`; then
`if (!search)` replies 400 `"Search term is required"`; then a second
positive-integer check on `parseInt(search)`; then cache read (hit returns
the parsed envelope with `X-Cache: HIT`); on a miss
`SELECT … WHERE index = $1 ORDER BY index ASC LIMIT $2 OFFSET $3` plus a
count query; the envelope is cached for 60 s and returned with
`X-Cache: MISS`. -/
def getProductsSearch (db : DB) (c : Cache) (now : Int)
    (qpage qlimit : Option Int) (qq _qsearch : Option String) :
    RouteOut SearchResult :=
  match validateSearchParams qpage qlimit qq with
  | .error msg =>
    { result := searchCatch msg, cache := c, accesses := [], headers := [] }
  | .ok (page, limit, search) =>
    let offset := (page - 1) * limit
    let searchFalsy : Bool := match search with | none => true | some s => s = ""
    if searchFalsy then
      { result := .badRequest "Search term is required", cache := c,
        accesses := [], headers := [] }
    else
      let s := search.getD ""
      match jsParseInt s with
      | none =>
        { result := .badRequest "Search term must be a positive integer (index number)",
          cache := c, accesses := [], headers := [] }
      | some indexNumber =>
        if indexNumber < 1 then
          { result := .badRequest "Search term must be a positive integer (index number)",
            cache := c, accesses := [], headers := [] }
        else
          let cacheKey := searchCacheKey indexNumber page limit
          match cacheGet c cacheKey now with
          | some (.searchEnv env) =>
            { result := .ok env "HIT", cache := c,
              accesses := [.cacheRead cacheKey],
              headers := ["X-Cache", "X-Response-Time"] }
          | _ =>
            let matching := db.filter (fun p => p.index == indexNumber)
            let rows := ((sortByIndex matching).drop offset.toNat).take limit.toNat
            let total : Int := matching.length
            let env : SearchEnvelope :=
              { products := rows, page := page, limit := limit,
                total := total, searchTerm := s }
            let c1 := cacheSet c cacheKey (.searchEnv env) 60 now
            { result := .ok env "MISS", cache := c1,
              accesses :=
                [.cacheRead cacheKey,
                 .dbQuery "searching products by index",
                 .dbQuery "counting search results by index",
                 .cacheWrite cacheKey],
              headers := ["X-Cache", "X-Response-Time"] }

/-! ## `GET /api/products/:index` (single item) -/

/-- HTTP-level result of the single-item handler. -/
inductive ItemResult where
  | ok (product : Product)
  | badRequest (message : String)
  | notFound (message : String)
  | internalError (message : String)
deriving DecidableEq, Repr

/-- The `GET /api/products/:index` handler.

From the source: parse and validate the `index` path parameter
(`parseInt`, must be a positive integer, else 400); run
`SELECT * FROM products WHERE index = $1`; an empty row set replies 404;
otherwise return `rows[0]` with an `X-Response-Time` header.  The handler
performs no cache access of any kind and sets no `X-Cache` header. -/
def getProductByIndex (db : DB) (c : Cache) (indexParam : String) :
    RouteOut ItemResult :=
  match jsParseInt indexParam with
  | none =>
    { result := .badRequest "Product Index must be a positive integer",
      cache := c, accesses := [], headers := [] }
  | some productIndex =>
    if productIndex < 1 then
      { result := .badRequest "Product Index must be a positive integer",
        cache := c, accesses := [], headers := [] }
    else
      let rows := db.filter (fun p => p.index == productIndex)
      match rows with
      | [] =>
        { result := .notFound ("Product with Index " ++ toString productIndex ++ " not found"),
          cache := c, accesses := [.dbQuery "fetching product by Index"],
          headers := [] }
      | product :: _ =>
        { result := .ok product, cache := c,
          accesses := [.dbQuery "fetching product by Index"],
          headers := ["X-Response-Time"] }

/-! ## `GET /api/products/category/:categoryName` -/

/-- One hexadecimal digit, upper case. -/
def hexDigit (n : Nat) : Char :=
  if n < 10 then Char.ofNat ('0'.toNat + n) else Char.ofNat ('A'.toNat + (n - 10))

/-- Characters `encodeURIComponent` leaves unescaped. -/
def uriUnreserved (c : Char) : Bool :=
  c.isAlphanum ∨ c ∈ ['-', '_', '.', '!', '~', '*', '\'', '(', ')']

/-- JavaScript `encodeURIComponent`: unreserved characters pass through,
every other character is percent-encoded per UTF-8 byte. -/
def encodeURIComponent (s : String) : String :=
  s.toList.foldl
    (fun acc c =>
      if uriUnreserved c then acc ++ String.singleton c
      else acc ++ String.mk
        ((String.singleton c).toUTF8.toList.foldr
          (fun b t => '%' :: hexDigit (b.toNat / 16) :: hexDigit (b.toNat % 16) :: t) []))
    ""

/-- Cache key of a category lookup. -/
def categoryCacheKey (cleanCategoryName : String) : String :=
  "products:category:" ++ encodeURIComponent (strToLower cleanCategoryName) ++ ":limit:5"

/-- HTTP-level result of the category handler. -/
inductive CategoryResult where
  | ok (env : CategoryEnvelope) (xcache : String)
  | badRequest (message : String)
  | notFound (message : String)
  | internalError (message : String)
deriving DecidableEq, Repr

/-- Rows matching a category, case-insensitively:
`WHERE LOWER(category) = LOWER($1)`. -/
def categoryMatchRows (db : DB) (cleanCategoryName : String) : List Product :=
  db.filter (fun p => strToLower p.category == strToLower cleanCategoryName)

/-- Rows eligible for the random fill:
`WHERE LOWER(category) != LOWER($1) AND id != ALL($2)`.  When the exclusion
list is empty the source omits the `id` clause, which coincides with
filtering against the empty list. -/
def randomEligibleRows (db : DB) (cleanCategoryName : String)
    (excludeIds : List Int) : List Product :=
  db.filter (fun p =>
    ¬ strToLower p.category == strToLower cleanCategoryName ∧ ¬ excludeIds.contains p.id)

/-- The `GET /api/products/category/:categoryName` handler.

`shuffle` models `ORDER BY RANDOM()`: an arbitrary reordering of the
eligible rows (theorems assume it permutes its input).  Control flow from
the source: trim and reject an empty category name (400); cache read (hit
returns the parsed envelope); on a miss fetch up to 5 category rows
(`ORDER BY index LIMIT 5`); if fewer than 5, fetch
`5 - products.length` random rows excluding the already-included ids and
the matched category, and append them; if the combined list is empty reply
404; otherwise assemble the envelope (with `categoryMatches` the category
row count and `randomProducts` the fill count), cache it for 60 s and
return it with `X-Cache: MISS`. -/
def getProductsByCategory (db : DB) (c : Cache) (now : Int)
    (shuffle : List Product → List Product) (categoryName : String) :
    RouteOut CategoryResult :=
  let cleanCategoryName := strTrim categoryName
  if cleanCategoryName = "" then
    { result := .badRequest "Category name cannot be empty",
      cache := c, accesses := [], headers := [] }
  else
    let cacheKey := categoryCacheKey cleanCategoryName
    match cacheGet c cacheKey now with
    | some (.catEnv env) =>
      { result := .ok env "HIT", cache := c,
        accesses := [.cacheRead cacheKey],
        headers := ["X-Cache", "X-Response-Time"] }
    | _ =>
      let catRows := (sortByIndex (categoryMatchRows db cleanCategoryName)).take 5
      let needsRandomProducts := catRows.length < 5
      let (products, fillAccesses) :=
        if needsRandomProducts then
          let productsNeeded := 5 - catRows.length
          let excludeIds := catRows.map (fun p => p.id)
          let eligible := randomEligibleRows db cleanCategoryName excludeIds
          (catRows ++ (shuffle eligible).take productsNeeded,
           [Access.dbQuery "fetching random products to supplement category results"])
        else (catRows, [])
      if products.length = 0 then
        { result := .notFound ("No products found in category '" ++ cleanCategoryName ++
            "' and no other products available"),
          cache := c,
          accesses := [.cacheRead cacheKey,
            .dbQuery "fetching products by category"] ++ fillAccesses,
          headers := [] }
      else
        let env : CategoryEnvelope :=
          { products := products, category := cleanCategoryName,
            count := products.length,
            categoryMatches := catRows.length,
            randomProducts :=
              if needsRandomProducts then (products.length : Int) - catRows.length else 0 }
        let c1 := cacheSet c cacheKey (.catEnv env) 60 now
        { result := .ok env "MISS", cache := c1,
          accesses := [.cacheRead cacheKey,
            .dbQuery "fetching products by category"] ++ fillAccesses ++
            [.cacheWrite cacheKey],
          headers := ["X-Cache", "X-Response-Time"] }

/-! ## Auxiliary definitions for the statements -/

/-- The effects an event list produces when queueing is disabled: one
`proceed` per arrival, in order. -/
def arrivalEffects : List QueueEvent → List QueueEffect :=
  List.filterMap fun ev =>
    match ev with
    | .arrive r _ => some (.proceed r)
    | .complete _ => none

/-- Queue options with a concurrency bound of one and queueing enabled,
used to exercise the admission path at its bound. -/
def queueOptsMax1 : QueueOptions :=
  { maxConcurrentRequests := 1, queueTimeout := 30000, enableQueue := true }

/-- A middleware state whose queue can never drain: either the queue is
empty, or the active counter has reached the bound. -/
def Saturated (opts : QueueOptions) (s : MWState) : Prop :=
  s.requestQueue = [] ∨ ¬ s.activeRequests < opts.maxConcurrentRequests

/-! ## Queue middleware lemmas -/

theorem processQueue_at_capacity (opts : QueueOptions) (now : Int)
    (q : List QueueEntry) (active : Int)
    (h : ¬ active < opts.maxConcurrentRequests) :
    processQueue opts now q active = (q, active, []) := by
  cases q with
  | nil => simp [processQueue]
  | cons e rest => simp [processQueue, h]

theorem runQueueFrom_cons (opts : QueueOptions) (s : MWState)
    (ev : QueueEvent) (rest : List QueueEvent) :
    runQueueFrom opts s (ev :: rest) =
      ((runQueueFrom opts (queueStep opts s ev).1 rest).1,
        (queueStep opts s ev).2 ++ (runQueueFrom opts (queueStep opts s ev).1 rest).2) :=
  rfl

theorem onRequest_admitted (opts : QueueOptions) (now : Int) (reqId : Nat)
    (s : MWState)
    (h : ¬ opts.enableQueue ∨ s.activeRequests < opts.maxConcurrentRequests) :
    onRequest opts now reqId s =
      ({ s with activeRequests := s.activeRequests + 1 }, [.proceed reqId]) :=
  if_pos h

theorem onRequest_queued (opts : QueueOptions) (now : Int) (reqId : Nat)
    (s : MWState) (hen : opts.enableQueue = true)
    (hcap : ¬ s.activeRequests < opts.maxConcurrentRequests) :
    onRequest opts now reqId s =
      ({ activeRequests := s.activeRequests,
         requestQueue := s.requestQueue ++ [{ reqId := reqId, timestamp := now }] },
       [.headerQueuePosition reqId (s.requestQueue.length + 1),
        .headerQueueWaitTime reqId 0]) := by
  unfold onRequest
  rw [if_neg (by simp [hen, hcap])]
  simp [processQueue_at_capacity opts now _ _ hcap]

/-- With queueing disabled every event trace leaves the queue empty,
admits each arrival immediately (one `proceed` effect per arrival, and
nothing else), and bumps the counter once per arrival. -/
theorem runQueueFrom_queue_disabled (opts : QueueOptions)
    (h : opts.enableQueue = false) (evs : List QueueEvent) (s : MWState) :
    runQueueFrom opts s evs =
      ({ activeRequests := s.activeRequests + (arrivalEffects evs).length,
         requestQueue := s.requestQueue }, arrivalEffects evs) := by
  induction evs generalizing s with
  | nil => simp [runQueueFrom, arrivalEffects]
  | cons ev rest ih =>
    cases ev with
    | arrive r t =>
      rw [runQueueFrom_cons]
      have hstep : queueStep opts s (.arrive r t) =
          ({ s with activeRequests := s.activeRequests + 1 }, [.proceed r]) :=
        onRequest_admitted opts t r s (Or.inl (by simp [h]))
      rw [hstep, ih]
      simp only [arrivalEffects, List.filterMap_cons, Prod.mk.injEq,
        MWState.mk.injEq, List.length_cons, List.singleton_append]
      refine ⟨⟨?_, trivial⟩, trivial⟩
      push_cast
      ring
    | complete r =>
      rw [runQueueFrom_cons]
      have hstep : queueStep opts s (.complete r) = (s, []) := rfl
      rw [hstep, ih]
      simp [arrivalEffects]

/-- Once the middleware is saturated (queue empty or counter at the bound),
no later event ever removes a queued entry, no entry is ever rejected with
a 503, and saturation persists: the only counter updates are the increment
on direct admission and the balanced `++`/`--` pair in `processQueue`, and
no completion hook exists. -/
theorem queued_entries_stuck (opts : QueueOptions) (evs : List QueueEvent)
    (s : MWState) (hs : Saturated opts s) :
    Saturated opts (runQueueFrom opts s evs).1 ∧
    (∀ e ∈ s.requestQueue, e ∈ (runQueueFrom opts s evs).1.requestQueue) ∧
    (∀ r, QueueEffect.sent503 r ∉ (runQueueFrom opts s evs).2) := by
  induction evs generalizing s with
  | nil => exact ⟨hs, fun e he => he, fun r hr => by simp [runQueueFrom] at hr⟩
  | cons ev rest ih =>
    cases ev with
    | complete r =>
      have hstep : queueStep opts s (.complete r) = (s, []) := rfl
      rw [runQueueFrom_cons, hstep]
      simpa using ih s hs
    | arrive r t =>
      rw [runQueueFrom_cons]
      by_cases hadm : ¬ opts.enableQueue ∨ s.activeRequests < opts.maxConcurrentRequests
      · -- direct admission: the queue is untouched, the counter grows
        have hstep : queueStep opts s (.arrive r t) =
            ({ s with activeRequests := s.activeRequests + 1 }, [.proceed r]) :=
          onRequest_admitted opts t r s hadm
        rw [hstep]
        have hs' : Saturated opts ({ s with activeRequests := s.activeRequests + 1 }) := by
          rcases hs with hq | ha
          · exact Or.inl hq
          · exact Or.inr (by simp only [] at ha ⊢; omega)
        have hrec := ih _ hs'
        refine ⟨hrec.1, fun e he => hrec.2.1 e he, fun r' hr' => ?_⟩
        simp only [List.cons_append, List.nil_append, List.mem_cons] at hr'
        rcases hr' with h1 | h2
        · cases h1
        · exact hrec.2.2 r' h2
      · -- enqueue: the counter is at the bound, so `processQueue` pops nothing
        have hen : opts.enableQueue = true := by
          by_contra hc
          exact hadm (Or.inl (by simpa using hc))
        have hcap : ¬ s.activeRequests < opts.maxConcurrentRequests := fun hlt =>
          hadm (Or.inr hlt)
        have hstep : queueStep opts s (.arrive r t) =
            ({ activeRequests := s.activeRequests,
               requestQueue := s.requestQueue ++ [{ reqId := r, timestamp := t }] },
             [.headerQueuePosition r (s.requestQueue.length + 1),
              .headerQueueWaitTime r 0]) :=
          onRequest_queued opts t r s hen hcap
        rw [hstep]
        have hs' : Saturated opts
            ({ activeRequests := s.activeRequests,
               requestQueue := s.requestQueue ++ [{ reqId := r, timestamp := t }] } :
              MWState) := Or.inr hcap
        have hrec := ih _ hs'
        refine ⟨hrec.1, fun e he => hrec.2.1 e (by simp [he]), fun r' hr' => ?_⟩
        simp only [List.mem_append, List.mem_cons, List.mem_singleton] at hr'
        rcases hr' with h1 | h2
        · rcases h1 with h1a | h1b
          · cases h1a
          · simp at h1b
        · exact hrec.2.2 r' h2

/-! ## Claim theorems: admission/queue controller -/

/-- C1: the claim says that with `max_concurrent = N` the `(N+1)`-th
concurrent `acquire()` is queued until a `release()` occurs, and that a
`release()` promotes exactly the earliest queued entry, incrementing
`active_count` and resuming its handler.  The code refutes the promotion
half: with `maxConcurrentRequests = 1` and queueing enabled, request `0` is
admitted and request `1` is queued, but after request `0` completes no
promotion happens — there is no release path at request end, the queued
entry's stored `done` closure does not hold the original continuation, so
request `1` is never resumed (no `proceed 1`), never rejected (no
`sent503 1`), remains in the queue, and the counter stays at `1`. -/
theorem claim1_no_release_no_promotion :
    (runQueue queueOptsMax1 [.arrive 0 0, .arrive 1 0, .complete 0]).1 =
      { activeRequests := 1, requestQueue := [{ reqId := 1, timestamp := 0 }] } ∧
    QueueEffect.proceed 0 ∈
      (runQueue queueOptsMax1 [.arrive 0 0, .arrive 1 0, .complete 0]).2 ∧
    QueueEffect.proceed 1 ∉
      (runQueue queueOptsMax1 [.arrive 0 0, .arrive 1 0, .complete 0]).2 ∧
    QueueEffect.sent503 1 ∉
      (runQueue queueOptsMax1 [.arrive 0 0, .arrive 1 0, .complete 0]).2 := by
  decide

/-- C2: the claim says a capacity slot is released at request end, so
`active_count` returns to its pre-admission value.  The code refutes it:
after a single admitted request arrives and completes, `activeRequests` is
still `1` (not the pre-admission `0`) — both with the default options
(queueing disabled) and with queueing enabled — because no hook decrements
the counter at request end. -/
theorem claim2_slot_never_released :
    (runQueue (defaultQueueOptions none) [.arrive 0 0, .complete 0]).1.activeRequests = 1 ∧
    (runQueue queueOptsMax1 [.arrive 0 0, .complete 0]).1.activeRequests = 1 := by
  decide

/-- C3: the claim says a queued entry that has waited longer than
`queueTimeout` (30 s) is actively rejected with a 503 and removed from the
queue.  The code refutes it: the timeout is only checked inside
`processQueue`, which pops nothing while `activeRequests` has reached the
bound — and the counter never decreases.  Concretely, request `1` is
enqueued at time `0`; at time `1000000000` (far past the 30000 ms timeout)
a third arrival re-runs `processQueue`, yet request `1` is still queued,
no 503 was ever sent, and its handler never ran. -/
theorem claim3_timeout_rejection_unreachable :
    ({ reqId := 1, timestamp := 0 } : QueueEntry) ∈
      (runQueue queueOptsMax1
        [.arrive 0 0, .arrive 1 0, .complete 0, .arrive 2 1000000000]).1.requestQueue ∧
    (1000000000 : Int) - 0 > queueOptsMax1.queueTimeout ∧
    QueueEffect.sent503 1 ∉
      (runQueue queueOptsMax1
        [.arrive 0 0, .arrive 1 0, .complete 0, .arrive 2 1000000000]).2 ∧
    QueueEffect.sent503 2 ∉
      (runQueue queueOptsMax1
        [.arrive 0 0, .arrive 1 0, .complete 0, .arrive 2 1000000000]).2 ∧
    QueueEffect.proceed 1 ∉
      (runQueue queueOptsMax1
        [.arrive 0 0, .arrive 1 0, .complete 0, .arrive 2 1000000000]).2 := by
  decide

/-- C10: unless `ENABLE_REQUEST_QUEUE` is exactly `'true'`, `enableQueue`
defaults to false (with `maxConcurrentRequests` defaulting to 1000); then
every request is admitted immediately regardless of the counter, the queue
stays empty over any event trace, and the only effects ever produced are
`proceed` effects — in particular no `X-Queue-Position` or
`X-Queue-Wait-Time` header is ever set. -/
theorem claim10_queue_disabled_by_default (env : Option String)
    (henv : env ≠ some "true") (evs : List QueueEvent) :
    (defaultQueueOptions env).enableQueue = false ∧
    (defaultQueueOptions env).maxConcurrentRequests = 1000 ∧
    runQueue (defaultQueueOptions env) evs =
      ({ activeRequests := (arrivalEffects evs).length, requestQueue := [] },
        arrivalEffects evs) ∧
    ∀ eff ∈ (runQueue (defaultQueueOptions env) evs).2,
      ∃ r, eff = QueueEffect.proceed r := by
  have hen : (defaultQueueOptions env).enableQueue = false := by
    simp only [defaultQueueOptions, enableQueueDefault]
    exact decide_eq_false henv
  have hrun := runQueueFrom_queue_disabled (defaultQueueOptions env) hen evs initMWState
  have hrun' : runQueue (defaultQueueOptions env) evs =
      ({ activeRequests := (arrivalEffects evs).length, requestQueue := [] },
        arrivalEffects evs) := by
    rw [runQueue, hrun]
    simp [initMWState]
  refine ⟨hen, rfl, hrun', fun eff heff => ?_⟩
  rw [hrun'] at heff
  simp only [arrivalEffects, List.mem_filterMap] at heff
  obtain ⟨ev, _, hm⟩ := heff
  cases ev with
  | arrive r t => exact ⟨r, by simpa using hm.symm⟩
  | complete r => simp at hm

/-- Witness for `claim10_queue_disabled_by_default`: environment
`ENABLE_REQUEST_QUEUE = 'false'`, a trace of two arrivals and one
completion — both arrivals proceed immediately and the queue stays
empty. -/
theorem claim10_witness :
    (defaultQueueOptions (some "false")).enableQueue = false ∧
    runQueue (defaultQueueOptions (some "false")) [.arrive 0 0, .complete 0, .arrive 1 5] =
      ({ activeRequests := 2, requestQueue := [] },
        [.proceed 0, .proceed 1]) :=
  ⟨(claim10_queue_disabled_by_default (some "false") (by decide)
      [.arrive 0 0, .complete 0, .arrive 1 5]).1,
   by
    have h := (claim10_queue_disabled_by_default (some "false") (by decide)
      [.arrive 0 0, .complete 0, .arrive 1 5]).2.2.1
    simpa [arrivalEffects] using h⟩

/-! ## Validation lemmas -/

theorem validatePaginationParams_invalid (qpage qlimit : Option Int)
    (h : jsIntOr qpage 1 < 1 ∨ jsIntOr qlimit 10 < 1 ∨ jsIntOr qlimit 10 > 100) :
    ∃ msg, validatePaginationParams qpage qlimit = .error msg ∧
      listCatch msg = .badRequest msg ∧ searchCatch msg = .badRequest msg := by
  unfold validatePaginationParams
  by_cases hp : jsIntOr qpage 1 < 1
  · exact ⟨_, by rw [if_pos hp], by decide, by decide⟩
  · by_cases hl : jsIntOr qlimit 10 < 1
    · exact ⟨_, by rw [if_neg hp, if_pos hl], by decide, by decide⟩
    · have h2 : jsIntOr qlimit 10 > 100 := by tauto
      exact ⟨_, by rw [if_neg hp, if_neg hl, if_pos h2], by decide, by decide⟩

theorem validatePaginationParams_valid (qpage qlimit : Option Int)
    (hp : ¬ jsIntOr qpage 1 < 1) (hl1 : ¬ jsIntOr qlimit 10 < 1)
    (hl2 : ¬ jsIntOr qlimit 10 > 100) :
    validatePaginationParams qpage qlimit = .ok (jsIntOr qpage 1, jsIntOr qlimit 10) := by
  unfold validatePaginationParams
  rw [if_neg hp, if_neg hl1, if_neg hl2]

theorem validateSearchParams_no_q (qpage qlimit : Option Int)
    (hp : ¬ jsIntOr qpage 1 < 1) (hl1 : ¬ jsIntOr qlimit 10 < 1)
    (hl2 : ¬ jsIntOr qlimit 10 > 100) :
    validateSearchParams qpage qlimit none =
      .ok (jsIntOr qpage 1, jsIntOr qlimit 10, none) := by
  unfold validateSearchParams
  rw [validatePaginationParams_valid qpage qlimit hp hl1 hl2]

theorem validateSearchParams_some_q (qpage qlimit : Option Int) (s : String)
    (n : Int) (hp : ¬ jsIntOr qpage 1 < 1) (hl1 : ¬ jsIntOr qlimit 10 < 1)
    (hl2 : ¬ jsIntOr qlimit 10 > 100)
    (hs : jsParseInt (strTrim s) = some n) (hn : ¬ n < 1) (hne : s ≠ "") :
    validateSearchParams qpage qlimit (some s) =
      .ok (jsIntOr qpage 1, jsIntOr qlimit 10, some (strTrim s)) := by
  unfold validateSearchParams
  rw [validatePaginationParams_valid qpage qlimit hp hl1 hl2]
  simp [hne, hs, hn]

/-! ## Claim theorems: cache-aside resolver -/

/-- C4: for the listing operation, any request whose normalized `page` is
below 1 or whose normalized `limit` is below 1 or above 100 is answered
with the 400-mapped validation error, with no cache read or write and no
store query (its access trace is empty) — the cache is unchanged. -/
theorem claim4_listing_validation_before_store (db : DB) (c : Cache)
    (now : Int) (qpage qlimit : Option Int)
    (h : jsIntOr qpage 1 < 1 ∨ jsIntOr qlimit 10 < 1 ∨ jsIntOr qlimit 10 > 100) :
    (∃ msg, (getProducts db c now qpage qlimit).result = .badRequest msg) ∧
    (getProducts db c now qpage qlimit).accesses = [] ∧
    (getProducts db c now qpage qlimit).cache = c := by
  obtain ⟨msg, hv, hl, _⟩ := validatePaginationParams_invalid qpage qlimit h
  unfold getProducts
  rw [hv]
  exact ⟨⟨msg, hl⟩, rfl, rfl⟩

/-- Witness for `claim4_listing_validation_before_store`: a request with
`page = -1` on an empty catalog. -/
theorem claim4_witness :
    (∃ msg, (getProducts [] [] 0 (some (-1)) none).result = .badRequest msg) ∧
    (getProducts [] [] 0 (some (-1)) none).accesses = [] ∧
    (getProducts [] [] 0 (some (-1)) none).cache = [] :=
  claim4_listing_validation_before_store [] [] 0 (some (-1)) none (by decide)

/-- C5 counterexample: the claim says a search term supplied via the
`search` query parameter yields a search envelope.  The handler reads only
the `q` parameter: with `search = "1"` (a perfectly valid term) and no `q`,
the request is answered 400 `"Search term is required"` and the store is
never queried. -/
theorem claim5_counterexample :
    (getProductsSearch [{ id := 1, index := 1 }] [] 0 none none
        none (some "1")).result = .badRequest "Search term is required" ∧
    (getProductsSearch [{ id := 1, index := 1 }] [] 0 none none
        none (some "1")).accesses = [] := by
  decide

/-- C5 amended: the mandatory search term is read from the `q` query
parameter, not `search`.  With valid pagination: a request without `q` is
answered 400 `"Search term is required"` with no cache or store access,
regardless of any `search` parameter; a request whose `q` trims and parses
to a positive integer `n`, on a cache miss, returns the MISS search
envelope echoing the trimmed term, the page, the limit and the count of
rows with index `n`. -/
theorem claim5_search_requires_q (db : DB) (c : Cache) (now : Int)
    (qpage qlimit : Option Int) (qsearch : Option String) (s : String) (n : Int)
    (hp : ¬ jsIntOr qpage 1 < 1) (hl1 : ¬ jsIntOr qlimit 10 < 1)
    (hl2 : ¬ jsIntOr qlimit 10 > 100)
    (hs : jsParseInt (strTrim s) = some n) (hn : ¬ n < 1) (hne : s ≠ "")
    (hmiss : cacheGet c (searchCacheKey n (jsIntOr qpage 1) (jsIntOr qlimit 10)) now = none) :
    ((getProductsSearch db c now qpage qlimit none qsearch).result =
        .badRequest "Search term is required" ∧
      (getProductsSearch db c now qpage qlimit none qsearch).accesses = []) ∧
    (∃ env : SearchEnvelope,
      (getProductsSearch db c now qpage qlimit (some s) qsearch).result = .ok env "MISS" ∧
      env.searchTerm = strTrim s ∧ env.page = jsIntOr qpage 1 ∧
      env.limit = jsIntOr qlimit 10 ∧
      env.total = ((db.filter (fun p => p.index == n)).length : Int)) := by
  constructor
  · unfold getProductsSearch
    rw [validateSearchParams_no_q qpage qlimit hp hl1 hl2]
    exact ⟨rfl, rfl⟩
  · have htrim : strTrim s ≠ "" := by
      intro hteq
      rw [hteq] at hs
      exact Option.noConfusion ((rfl : jsParseInt "" = none) ▸ hs)
    unfold getProductsSearch
    rw [validateSearchParams_some_q qpage qlimit s n hp hl1 hl2 hs hn hne]
    have hfalsy : (decide (strTrim s = "")) = false := decide_eq_false htrim
    simp only [Option.getD_some, hfalsy, Bool.false_eq_true, if_false,
      hs, if_neg hn, hmiss]
    exact ⟨_, rfl, rfl, rfl, rfl, rfl⟩

/-- Witness for `claim5_search_requires_q`: one-product catalog, empty
cache, default pagination, `q = "1"`, a decoy `search = "ignored"`. -/
theorem claim5_witness :
    (((getProductsSearch [{ id := 1, index := 1 }] [] 0 none none
          none (some "ignored")).result = .badRequest "Search term is required" ∧
      (getProductsSearch [{ id := 1, index := 1 }] [] 0 none none
          none (some "ignored")).accesses = []) ∧
    (∃ env : SearchEnvelope,
      (getProductsSearch [{ id := 1, index := 1 }] [] 0 none none
          (some "1") (some "ignored")).result = .ok env "MISS" ∧
      env.searchTerm = strTrim "1" ∧ env.page = jsIntOr none 1 ∧
      env.limit = jsIntOr none 10 ∧
      env.total = ((([{ id := 1, index := 1 }] : DB).filter
        (fun p => p.index == (1 : Int))).length : Int))) :=
  claim5_search_requires_q [{ id := 1, index := 1 }] [] 0 none none
    (some "ignored") "1" 1 (by decide) (by decide) (by decide) (by decide)
    (by decide) (by decide) (by decide)

/-- C8: a single-item lookup whose index parses to a positive integer `n`
matched by no row answers 404 (`NotFoundError`-equivalent), leaves the
cache exactly as it was, and performs only the one store query — no cache
entry is populated. -/
theorem claim8_item_notfound_not_cached (db : DB) (c : Cache) (s : String)
    (n : Int) (hparse : jsParseInt s = some n) (hpos : ¬ n < 1)
    (hzero : db.filter (fun p => p.index == n) = []) :
    (getProductByIndex db c s).result =
      .notFound ("Product with Index " ++ toString n ++ " not found") ∧
    (getProductByIndex db c s).cache = c ∧
    (getProductByIndex db c s).accesses = [.dbQuery "fetching product by Index"] := by
  unfold getProductByIndex
  simp [hparse, hpos, hzero]

/-- Witness for `claim8_item_notfound_not_cached`: index 3 on a catalog
holding only index 1, with a non-empty cache that stays untouched. -/
theorem claim8_witness :
    (getProductByIndex [{ id := 1, index := 1 }]
        [(totalCountKey, .countVal 1, 100)] "3").result =
      .notFound ("Product with Index " ++ toString (3 : Int) ++ " not found") ∧
    (getProductByIndex [{ id := 1, index := 1 }]
        [(totalCountKey, .countVal 1, 100)] "3").cache =
      [(totalCountKey, .countVal 1, 100)] ∧
    (getProductByIndex [{ id := 1, index := 1 }]
        [(totalCountKey, .countVal 1, 100)] "3").accesses =
      [.dbQuery "fetching product by Index"] :=
  claim8_item_notfound_not_cached [{ id := 1, index := 1 }]
    [(totalCountKey, .countVal 1, 100)] "3" 3 (by decide) (by decide) (by decide)

/-- C9 counterexample: the claim says the single-item lookup goes through
the cache-aside algorithm (cache read before the query, cache populated on
success, `X-Cache` header set).  At a concrete successful lookup the access
trace is exactly the one store query — no cache read precedes it, nothing
is written to the cache — and no `X-Cache` header is set. -/
theorem claim9_counterexample :
    (getProductByIndex [{ id := 1, index := 1 }] [] "1").result =
      .ok { id := 1, index := 1 } ∧
    "X-Cache" ∉ (getProductByIndex [{ id := 1, index := 1 }] [] "1").headers ∧
    (getProductByIndex [{ id := 1, index := 1 }] [] "1").accesses =
      [.dbQuery "fetching product by Index"] ∧
    (getProductByIndex [{ id := 1, index := 1 }] [] "1").cache = [] := by
  decide

/-- C9 amended: the single-item lookup bypasses the cache-aside path
entirely: on every input it leaves the cache unchanged, never sets an
`X-Cache` header, and its only possible access is the direct store
query. -/
theorem claim9_item_route_bypasses_cache (db : DB) (c : Cache) (s : String) :
    (getProductByIndex db c s).cache = c ∧
    "X-Cache" ∉ (getProductByIndex db c s).headers ∧
    ∀ a ∈ (getProductByIndex db c s).accesses,
      a = Access.dbQuery "fetching product by Index" := by
  unfold getProductByIndex
  cases hp : jsParseInt s with
  | none => simp
  | some n =>
    by_cases hlt : n < 1
    · simp [hlt]
    · simp only [if_neg hlt]
      cases hr : db.filter (fun p => p.index == n) with
      | nil => simp [hr]
      | cons p t => simp [hr]

/-! ## Sorting lemmas -/

theorem sortByIndex_length (l : List Product) : (sortByIndex l).length = l.length :=
  List.length_insertionSort _ l

theorem mem_sortByIndex {l : List Product} {p : Product} : p ∈ sortByIndex l ↔ p ∈ l :=
  List.mem_insertionSort _

/-- C6: category lookup behaviour on a cache miss (with `shuffle` — the
`ORDER BY RANDOM()` collaborator — assumed to permute its input):
with five or more case-insensitive category matches the response holds
exactly 5 products, all from the category, with `randomProducts = 0`;
with exactly two matches (and at least three rows eligible for the random
fill) the response holds 5 products with `categoryMatches = 2` and
`randomProducts = 3`, the fill drawn from the catalog excluding the
matched category and the already-included ids; and a `NotFoundError`
result is possible only when the catalog is empty. -/
theorem claim6_category_fill (db : DB) (c : Cache) (now : Int)
    (shuffle : List Product → List Product)
    (hshuffle : ∀ l, (shuffle l).Perm l)
    (categoryName : String)
    (hname : strTrim categoryName ≠ "")
    (hmiss : cacheGet c (categoryCacheKey (strTrim categoryName)) now = none) :
    (5 ≤ (categoryMatchRows db (strTrim categoryName)).length →
      ∃ env : CategoryEnvelope,
        (getProductsByCategory db c now shuffle categoryName).result = .ok env "MISS" ∧
        env.products.length = 5 ∧
        (∀ p ∈ env.products, strToLower p.category = strToLower (strTrim categoryName)) ∧
        env.randomProducts = 0) ∧
    ((categoryMatchRows db (strTrim categoryName)).length = 2 →
      3 ≤ (randomEligibleRows db (strTrim categoryName)
          (((sortByIndex (categoryMatchRows db (strTrim categoryName))).take 5).map
            (fun p => p.id))).length →
      ∃ env : CategoryEnvelope,
        (getProductsByCategory db c now shuffle categoryName).result = .ok env "MISS" ∧
        env.products.length = 5 ∧ env.count = 5 ∧
        env.categoryMatches = 2 ∧ env.randomProducts = 3 ∧
        (∀ p ∈ env.products.drop 2,
          p ∈ db ∧ strToLower p.category ≠ strToLower (strTrim categoryName) ∧
            p.id ∉ (env.products.take 2).map (fun q => q.id))) ∧
    (∀ msg, (getProductsByCategory db c now shuffle categoryName).result = .notFound msg →
      db = []) := by
  refine ⟨?_, ?_, ?_⟩
  · -- five or more category matches: all five from the category, no random fill
    intro h5
    have hlen5 : ((sortByIndex (categoryMatchRows db (strTrim categoryName))).take 5).length = 5 := by
      rw [List.length_take, sortByIndex_length]
      omega
    unfold getProductsByCategory
    simp only [if_neg hname, hmiss]
    have h55 : ((5:Nat) < 5) = False := by simp
    have h50 : ((5:Nat) = 0) = False := by simp
    simp only [hlen5, h55, h50, if_false]
    refine ⟨_, rfl, hlen5, ?_, rfl⟩
    intro p hp
    have hmem : p ∈ categoryMatchRows db (strTrim categoryName) :=
      mem_sortByIndex.mp (List.mem_of_mem_take hp)
    have := (List.mem_filter.mp hmem).2
    exact beq_iff_eq.mp this
  · -- exactly two category matches and at least three eligible fill rows
    intro h2 helig
    have hlen2 : ((sortByIndex (categoryMatchRows db (strTrim categoryName))).take 5).length = 2 := by
      rw [List.length_take, sortByIndex_length, h2]
      omega
    have hfill : ((shuffle (randomEligibleRows db (strTrim categoryName)
        (((sortByIndex (categoryMatchRows db (strTrim categoryName))).take 5).map
          (fun p => p.id)))).take (5 - 2)).length = 3 := by
      rw [List.length_take, (hshuffle _).length_eq]
      omega
    unfold getProductsByCategory
    simp only [if_neg hname, hmiss]
    simp only [hlen2]
    have h25 : ((2:Nat) < 5) = True := by simp
    simp only [h25, if_true]
    have hlenp : ((sortByIndex (categoryMatchRows db (strTrim categoryName))).take 5 ++
        (shuffle (randomEligibleRows db (strTrim categoryName)
          (((sortByIndex (categoryMatchRows db (strTrim categoryName))).take 5).map
            (fun p => p.id)))).take (5 - 2)).length = 5 := by
      rw [List.length_append, hlen2, hfill]
    have h5z : ((5:Nat) = 0) = False := by simp
    simp only [hlenp, h5z, if_false]
    refine ⟨_, rfl, hlenp, ?_, ?_, ?_, ?_⟩
    · simp only [hlenp]
      rfl
    · simp only [hlen2]
      rfl
    · simp only [hlenp, hlen2]
      rfl
    · intro p hp
      rw [show (2:Nat) = ((sortByIndex (categoryMatchRows db (strTrim categoryName))).take 5).length
          from hlen2.symm, List.drop_left] at hp
      have hpshuf : p ∈ shuffle (randomEligibleRows db (strTrim categoryName)
          (((sortByIndex (categoryMatchRows db (strTrim categoryName))).take 5).map
            (fun q => q.id))) := List.mem_of_mem_take hp
      have hpelig : p ∈ randomEligibleRows db (strTrim categoryName)
          (((sortByIndex (categoryMatchRows db (strTrim categoryName))).take 5).map
            (fun q => q.id)) := (hshuffle _).mem_iff.mp hpshuf
      have hpc := List.mem_filter.mp hpelig
      have hdbmem : p ∈ db := hpc.1
      have hcond := of_decide_eq_true hpc.2
      refine ⟨hdbmem, ?_, ?_⟩
      · intro heq
        exact hcond.1 (by simp [heq])
      · intro hmem
        refine hcond.2 ?_
        rw [show (2:Nat) = ((sortByIndex (categoryMatchRows db (strTrim categoryName))).take 5).length
            from hlen2.symm, List.take_left] at hmem
        simpa [List.elem_iff] using hmem
  · -- a 404 is possible only on an empty catalog
    intro msg hmsg
    by_cases hlt : ((sortByIndex (categoryMatchRows db (strTrim categoryName))).take 5).length < 5
    · -- fill branch
      rw [getProductsByCategory] at hmsg
      simp only [if_neg hname, hmiss, eq_true hlt, if_true] at hmsg
      by_cases hz : ((sortByIndex (categoryMatchRows db (strTrim categoryName))).take 5 ++
          (shuffle (randomEligibleRows db (strTrim categoryName)
            (((sortByIndex (categoryMatchRows db (strTrim categoryName))).take 5).map
              (fun p => p.id)))).take
            (5 - ((sortByIndex (categoryMatchRows db (strTrim categoryName))).take 5).length)).length = 0
      · -- both the match list and the fill are empty: the catalog is empty
        have hcat0 : (sortByIndex (categoryMatchRows db (strTrim categoryName))).take 5 = [] := by
          rw [List.length_append] at hz
          exact List.length_eq_zero.mp (by omega)
        have hmat : categoryMatchRows db (strTrim categoryName) = [] := by
          have hc := congrArg List.length hcat0
          rw [List.length_take, sortByIndex_length, List.length_nil] at hc
          exact List.length_eq_zero.mp (by omega)
        have helig0 : randomEligibleRows db (strTrim categoryName) (([] : List Product).map (fun p => p.id)) = [] := by
          rw [List.length_append] at hz
          have hf : ((shuffle (randomEligibleRows db (strTrim categoryName)
              (((sortByIndex (categoryMatchRows db (strTrim categoryName))).take 5).map
                (fun p => p.id)))).take
              (5 - ((sortByIndex (categoryMatchRows db (strTrim categoryName))).take 5).length)).length = 0 := by
            omega
          rw [List.length_take, (hshuffle _).length_eq, hcat0, List.length_nil, Nat.sub_zero] at hf
          exact List.length_eq_zero.mp (by omega)
        cases db with
        | nil => rfl
        | cons q t =>
          exfalso
          have hq : q ∈ (q :: t : List Product) := List.mem_cons_self q t
          have hpred1 : ¬ ((strToLower q.category == strToLower (strTrim categoryName)) = true) := by
            rw [categoryMatchRows, List.filter_eq_nil_iff] at hmat
            exact hmat q hq
          have hqelig : q ∈ randomEligibleRows (q :: t) (strTrim categoryName)
              (([] : List Product).map (fun p => p.id)) := by
            refine List.mem_filter.mpr ⟨hq, ?_⟩
            refine decide_eq_true ?_
            constructor
            · simpa using hpred1
            · simp
          rw [helig0] at hqelig
          simp at hqelig
      · -- the combined list is non-empty, so the result is the MISS envelope
        simp only [eq_false hz, if_false] at hmsg
        cases hmsg
    · -- at least five matches: five category products, never a 404
      rw [getProductsByCategory] at hmsg
      simp only [if_neg hname, hmiss, eq_false hlt, if_false] at hmsg
      have hne : ¬ (((sortByIndex (categoryMatchRows db (strTrim categoryName))).take 5).length = 0) := by
        omega
      simp only [eq_false hne, if_false] at hmsg
      cases hmsg

/-- Witness for `claim6_category_fill`: a seven-product catalog with two
`cat`-category matches queried as `"CAT"`, identity shuffle, empty cache. -/
theorem claim6_witness :
    ∃ env : CategoryEnvelope,
      (getProductsByCategory
        [{ id := 1, index := 1, category := "Cat" }, { id := 2, index := 2, category := "cat" },
         { id := 3, index := 3, category := "x" }, { id := 4, index := 4, category := "y" },
         { id := 5, index := 5, category := "z" }, { id := 6, index := 6, category := "w" },
         { id := 7, index := 7, category := "v" }]
        [] 0 (fun l => l) "CAT").result = .ok env "MISS" ∧
      env.products.length = 5 ∧ env.count = 5 ∧
      env.categoryMatches = 2 ∧ env.randomProducts = 3 := by
  obtain ⟨env, h1, h2, h3, h4, h5, _⟩ :=
    (claim6_category_fill
      [{ id := 1, index := 1, category := "Cat" }, { id := 2, index := 2, category := "cat" },
       { id := 3, index := 3, category := "x" }, { id := 4, index := 4, category := "y" },
       { id := 5, index := 5, category := "z" }, { id := 6, index := 6, category := "w" },
       { id := 7, index := 7, category := "v" }]
      [] 0 (fun l => l) (fun l => List.Perm.refl l) "CAT"
      (by decide) rfl).2.1 (by decide) (by decide)
  exact ⟨env, h1, h2, h3, h4, h5⟩

/-! ## Cache round-trip lemmas -/

/-- Reading a key just written returns the written payload at any instant
strictly before the expiry `now + ttl`. -/
theorem cacheGet_cacheSet_same (c : Cache) (k : String) (v : CacheVal)
    (ttl now t : Int) (h : t < now + ttl) :
    cacheGet (cacheSet c k v ttl now) k t = some v := by
  unfold cacheGet cacheSet
  simp [List.find?_cons, h]

/-- A valid listing request that hits the cache returns the cached
envelope tagged HIT. -/
theorem getProducts_hit (db : DB) (c : Cache) (now : Int)
    (qpage qlimit : Option Int) (env : ListEnvelope)
    (hp : ¬ jsIntOr qpage 1 < 1) (hl1 : ¬ jsIntOr qlimit 10 < 1)
    (hl2 : ¬ jsIntOr qlimit 10 > 100)
    (hhit : cacheGet c (listCacheKey (jsIntOr qpage 1) (jsIntOr qlimit 10)) now =
      some (.listEnv env)) :
    (getProducts db c now qpage qlimit).result = .ok env "HIT" := by
  unfold getProducts
  rw [validatePaginationParams_valid qpage qlimit hp hl1 hl2]
  simp only [hhit]

/-- A valid listing request that misses the cache returns some envelope
tagged MISS and leaves that envelope readable under the page's cache key
until `now + 60`. -/
theorem getProducts_miss (db : DB) (c : Cache) (now : Int)
    (qpage qlimit : Option Int)
    (hp : ¬ jsIntOr qpage 1 < 1) (hl1 : ¬ jsIntOr qlimit 10 < 1)
    (hl2 : ¬ jsIntOr qlimit 10 > 100)
    (hmiss : cacheGet c (listCacheKey (jsIntOr qpage 1) (jsIntOr qlimit 10)) now = none) :
    ∃ env : ListEnvelope,
      (getProducts db c now qpage qlimit).result = .ok env "MISS" ∧
      ∀ t, t < now + 60 →
        cacheGet (getProducts db c now qpage qlimit).cache
          (listCacheKey (jsIntOr qpage 1) (jsIntOr qlimit 10)) t = some (.listEnv env) := by
  unfold getProducts
  rw [validatePaginationParams_valid qpage qlimit hp hl1 hl2]
  simp only [hmiss]
  exact ⟨_, rfl, fun t ht => cacheGet_cacheSet_same _ _ _ _ _ _ ht⟩

/-- C7: cache round-trip idempotence — a payload written under key `k`
with TTL `ttl` reads back structurally equal before expiry — and the
end-to-end listing scenario: a valid request that misses the cache
returns some envelope tagged MISS, and an identical repeat request
against the resulting cache within the 60-second TTL returns the very
same envelope tagged HIT. -/
theorem claim7_cache_roundtrip_miss_then_hit
    (c0 : Cache) (k : String) (v : CacheVal) (ttl t1 t2 : Int)
    (hrt : t2 < t1 + ttl)
    (db : DB) (c : Cache) (now nowRepeat : Int) (qpage qlimit : Option Int)
    (hp : ¬ jsIntOr qpage 1 < 1) (hl1 : ¬ jsIntOr qlimit 10 < 1)
    (hl2 : ¬ jsIntOr qlimit 10 > 100)
    (hmiss : cacheGet c (listCacheKey (jsIntOr qpage 1) (jsIntOr qlimit 10)) now = none)
    (hfresh : nowRepeat < now + 60) :
    cacheGet (cacheSet c0 k v ttl t1) k t2 = some v ∧
    ∃ env : ListEnvelope,
      (getProducts db c now qpage qlimit).result = .ok env "MISS" ∧
      (getProducts db (getProducts db c now qpage qlimit).cache
          nowRepeat qpage qlimit).result = .ok env "HIT" := by
  obtain ⟨env, hm, hcache⟩ := getProducts_miss db c now qpage qlimit hp hl1 hl2 hmiss
  exact ⟨cacheGet_cacheSet_same c0 k v ttl t1 t2 hrt,
    env, hm,
    getProducts_hit db _ nowRepeat qpage qlimit env hp hl1 hl2 (hcache nowRepeat hfresh)⟩

/-- Witness for `claim7_cache_roundtrip_miss_then_hit`: a round trip under
key `"k"`, and the claim's own scenario — listing page 1 limit 10 (the
defaults) on a one-product catalog with an empty cache at `t = 0`,
repeated at `t = 10`. -/
theorem claim7_witness :
    cacheGet (cacheSet [] "k" (.countVal 5) 60 0) "k" 30 = some (.countVal 5) ∧
    ∃ env : ListEnvelope,
      (getProducts [{ id := 1, index := 1 }] [] 0 none none).result = .ok env "MISS" ∧
      (getProducts [{ id := 1, index := 1 }]
          (getProducts [{ id := 1, index := 1 }] [] 0 none none).cache
          10 none none).result = .ok env "HIT" :=
  claim7_cache_roundtrip_miss_then_hit [] "k" (.countVal 5) 60 0 30 (by decide)
    [{ id := 1, index := 1 }] [] 0 10 none none
    (by decide) (by decide) (by decide) (by decide) (by decide)

end ECommerce
